import Mathlib

/-!
Verification of the encrypt/decrypt orchestration core of the fhevm-react-template
SDK (packages/fhevm-sdk/src/core): the type validator, the error taxonomy, the
encryption orchestrator (scalar / batch / struct), the decryption orchestrator
(userDecrypt / publicDecrypt) and the signature lifecycle helpers.

The TypeScript source is embedded shallowly:

* JavaScript runtime values that can appear in an `EncryptionValue` are the
  inductive `JSValue` (booleans, integer-valued numbers, bigints, strings,
  null/undefined); non-integral numbers are outside the modelled domain.
* Exceptions are values of `JsError`: either a classified `FhevmError`
  (code, message, suggestion, context bag, cause) or a raw engine error
  (e.g. the SyntaxError thrown by the `BigInt` built-in).
* Fallible functions return `Except JsError α`.
* The ambient clock `Math.floor(Date.now() / 1000)` is passed explicitly as an
  integer parameter `now` (whole seconds).
* The remote relayer instance is not executed; orchestrator functions return a
  *plan* value describing exactly the remote interaction they would perform
  (builder creation, appended values in order, the single finalize, or the
  argument list of a remote decrypt call).  An `Except.error` result therefore
  means the operation failed before any network interaction.
-/

/-- JavaScript runtime values relevant to the SDK core.  `vNum` covers the
integer-valued `number`s the SDK deals with; `vNull` stands for both `null`
and `undefined` (the source treats them identically via `=== null ||
=== undefined`). -/
inductive JSValue where
  | vBool (b : Bool)
  | vNum (n : Int)
  | vBigInt (n : Int)
  | vStr (s : String)
  | vNull
deriving DecidableEq, Repr

/-- `typeof` on a modelled JavaScript value. -/
def jsTypeof : JSValue → String
  | JSValue.vBool _ => "boolean"
  | JSValue.vNum _ => "number"
  | JSValue.vBigInt _ => "bigint"
  | JSValue.vStr _ => "string"
  | JSValue.vNull => "object"

/-- `EncryptionValue` from core/types.ts: `{ type: FheType, value: ... }`.
The `type` field is kept as a runtime string, since the validator's `switch`
has a `default` arm for unknown type strings. -/
structure EncryptionValue where
  type : String
  value : JSValue
deriving DecidableEq, Repr

/-- A value stored in an error's `context` diagnostic bag. -/
inductive CtxVal where
  | js (v : JSValue)
  | str (s : String)
  | num (n : Int)
  | encVal (e : EncryptionValue)
deriving DecidableEq, Repr

/-- The closed error-code taxonomy of core/errors.ts (`enum FhevmErrorCode`). -/
inductive FhevmErrorCode where
  | INIT_FAILED
  | INVALID_NETWORK
  | INVALID_CHAIN_ID
  | PROVIDER_NOT_AVAILABLE
  | SDK_LOAD_FAILED
  | ENCRYPTION_FAILED
  | INVALID_INPUT_TYPE
  | INVALID_VALUE
  | KEYPAIR_GENERATION_FAILED
  | DECRYPTION_FAILED
  | INVALID_CIPHERTEXT
  | SIGNATURE_REQUIRED
  | SIGNATURE_EXPIRED
  | SIGNATURE_INVALID
  | ACL_PERMISSION_DENIED
  | CONTRACT_CALL_FAILED
  | INVALID_CONTRACT_ADDRESS
  | ABI_NOT_FOUND
  | TRANSACTION_FAILED
  | WALLET_NOT_CONNECTED
  | WALLET_SIGNATURE_REJECTED
  | WALLET_EIP712_NOT_SUPPORTED
  | RPC_ERROR
  | RPC_NOT_REACHABLE
  | CHAIN_MISMATCH
  | UNSUPPORTED_CHAIN
  | STORAGE_ERROR
  | STORAGE_NOT_AVAILABLE
  | STORAGE_QUOTA_EXCEEDED
  | UNKNOWN_ERROR
  | OPERATION_ABORTED
  | INVALID_ARGUMENT
  | NOT_IMPLEMENTED
deriving DecidableEq, Repr

/-- The string value of each enum member of `FhevmErrorCode`. -/
def codeString : FhevmErrorCode → String
  | FhevmErrorCode.INIT_FAILED => "INIT_1000"
  | FhevmErrorCode.INVALID_NETWORK => "INIT_1001"
  | FhevmErrorCode.INVALID_CHAIN_ID => "INIT_1002"
  | FhevmErrorCode.PROVIDER_NOT_AVAILABLE => "INIT_1003"
  | FhevmErrorCode.SDK_LOAD_FAILED => "INIT_1004"
  | FhevmErrorCode.ENCRYPTION_FAILED => "ENCRYPT_2000"
  | FhevmErrorCode.INVALID_INPUT_TYPE => "ENCRYPT_2001"
  | FhevmErrorCode.INVALID_VALUE => "ENCRYPT_2002"
  | FhevmErrorCode.KEYPAIR_GENERATION_FAILED => "ENCRYPT_2003"
  | FhevmErrorCode.DECRYPTION_FAILED => "DECRYPT_3000"
  | FhevmErrorCode.INVALID_CIPHERTEXT => "DECRYPT_3001"
  | FhevmErrorCode.SIGNATURE_REQUIRED => "DECRYPT_3002"
  | FhevmErrorCode.SIGNATURE_EXPIRED => "DECRYPT_3003"
  | FhevmErrorCode.SIGNATURE_INVALID => "DECRYPT_3004"
  | FhevmErrorCode.ACL_PERMISSION_DENIED => "DECRYPT_3005"
  | FhevmErrorCode.CONTRACT_CALL_FAILED => "CONTRACT_4000"
  | FhevmErrorCode.INVALID_CONTRACT_ADDRESS => "CONTRACT_4001"
  | FhevmErrorCode.ABI_NOT_FOUND => "CONTRACT_4002"
  | FhevmErrorCode.TRANSACTION_FAILED => "CONTRACT_4003"
  | FhevmErrorCode.WALLET_NOT_CONNECTED => "WALLET_5000"
  | FhevmErrorCode.WALLET_SIGNATURE_REJECTED => "WALLET_5001"
  | FhevmErrorCode.WALLET_EIP712_NOT_SUPPORTED => "WALLET_5002"
  | FhevmErrorCode.RPC_ERROR => "NETWORK_6000"
  | FhevmErrorCode.RPC_NOT_REACHABLE => "NETWORK_6001"
  | FhevmErrorCode.CHAIN_MISMATCH => "NETWORK_6002"
  | FhevmErrorCode.UNSUPPORTED_CHAIN => "NETWORK_6003"
  | FhevmErrorCode.STORAGE_ERROR => "STORAGE_7000"
  | FhevmErrorCode.STORAGE_NOT_AVAILABLE => "STORAGE_7001"
  | FhevmErrorCode.STORAGE_QUOTA_EXCEEDED => "STORAGE_7002"
  | FhevmErrorCode.UNKNOWN_ERROR => "ERROR_9000"
  | FhevmErrorCode.OPERATION_ABORTED => "ERROR_9001"
  | FhevmErrorCode.INVALID_ARGUMENT => "ERROR_9002"
  | FhevmErrorCode.NOT_IMPLEMENTED => "ERROR_9003"

/-- A thrown JavaScript exception: either the SDK's classified `FhevmError`
(`class FhevmError extends Error`, with `name === 'FhevmError'`), or a raw
engine/library error (name such as "SyntaxError" or "Error" plus message). -/
inductive JsError where
  | fhevm (code : FhevmErrorCode) (message : String) (suggestion : Option String)
      (context : List (String × CtxVal)) (cause : Option JsError)
  | raw (name : String) (message : String)

/-- `isFhevmError` from core/errors.ts (`error instanceof FhevmError`). -/
def isFhevmError : JsError → Bool
  | JsError.fhevm _ _ _ _ _ => true
  | JsError.raw _ _ => false

/-- The `code` field of an error, when it is an `FhevmError`. -/
def errCode : JsError → Option FhevmErrorCode
  | JsError.fhevm c _ _ _ _ => some c
  | JsError.raw _ _ => none

/-- The `context` bag of an error (raw errors carry none). -/
def errContext : JsError → List (String × CtxVal)
  | JsError.fhevm _ _ _ ctx _ => ctx
  | JsError.raw _ _ => []

/-- The `message` of an error. -/
def errMessage : JsError → String
  | JsError.fhevm _ m _ _ _ => m
  | JsError.raw _ m => m

/-- `createEncryptionError` from core/errors.ts: always code
`ENCRYPTION_FAILED` with a fixed suggestion. -/
def createEncryptionError (message : String) (context : List (String × CtxVal))
    (cause : Option JsError) : JsError :=
  JsError.fhevm FhevmErrorCode.ENCRYPTION_FAILED message
    (some "Check that your input values are valid and the FHEVM instance is initialized")
    context cause

/-- `createDecryptionError` from core/errors.ts: always code
`DECRYPTION_FAILED` with a fixed suggestion. -/
def createDecryptionError (message : String) (context : List (String × CtxVal))
    (cause : Option JsError) : JsError :=
  JsError.fhevm FhevmErrorCode.DECRYPTION_FAILED message
    (some "Ensure you have proper ACL permissions and a valid EIP-712 signature")
    context cause

/-- `createInitError` from core/errors.ts (caller supplies the code; no
context bag). -/
def createInitError (code : FhevmErrorCode) (message : String)
    (suggestion : Option String) (cause : Option JsError) : JsError :=
  JsError.fhevm code message suggestion [] cause

/-- Is `c` one of `0-9`, `a-f`, `A-F`? -/
def isHexChar (c : Char) : Bool :=
  c.isDigit || (97 ≤ c.toNat && c.toNat ≤ 102) || (65 ≤ c.toNat && c.toNat ≤ 70)

/-- Does the character list `s` start with the character list `p`?
(Kernel-computable counterpart of `String.startsWith`.) -/
def strStartsWith (s p : List Char) : Bool :=
  s.take p.length == p

/-- Decimal value of a digit list (most significant first). -/
def digitsVal (l : List Char) : Nat :=
  l.foldl (fun a c => a * 10 + (c.toNat - 48)) 0

/-- Decimal parse of a nonempty all-digit character list
(kernel-computable counterpart of `String.toNat?`). -/
def strToNatOpt (l : List Char) : Option Nat :=
  if l ≠ [] ∧ l.all Char.isDigit then some (digitsVal l) else none

/-- Strip leading and trailing whitespace (counterpart of `String.trim`). -/
def strTrim (l : List Char) : List Char :=
  ((l.dropWhile Char.isWhitespace).reverse.dropWhile Char.isWhitespace).reverse

/-- Hexadecimal value of a hex-digit list (most significant first). -/
def hexVal (l : List Char) : Int :=
  l.foldl (fun acc c =>
    acc * 16 + (if c.isDigit then (c.toNat - 48 : Int)
      else if 97 ≤ c.toNat then (c.toNat - 87 : Int) else (c.toNat - 55 : Int))) 0

/-- The JavaScript `BigInt(string)` built-in: trims whitespace, accepts the
empty string as `0`, an optional sign followed by decimal digits, or an
unsigned `0x`/`0X` hexadecimal literal (the `0o`/`0b` forms are outside the
modelled domain); anything else throws a `SyntaxError` (`none`). -/
def parseBigIntString (s : String) : Option Int :=
  let t := strTrim s.data
  if t = [] then some 0
  else if strStartsWith t ['-'] then
    (strToNatOpt (t.drop 1)).map (fun n => -(n : Int))
  else if strStartsWith t ['+'] then
    (strToNatOpt (t.drop 1)).map (fun n => (n : Int))
  else if strStartsWith t ['0', 'x'] || strStartsWith t ['0', 'X'] then
    if (t.drop 2).all isHexChar && t.drop 2 ≠ [] then some (hexVal (t.drop 2))
    else none
  else (strToNatOpt t).map (fun n => (n : Int))

/-- The JavaScript `BigInt()` built-in on the modelled value domain: numbers
(integral in our domain) and booleans convert, strings parse or throw a
`SyntaxError`, `null`/`undefined` throw a `TypeError`. -/
def jsBigInt : JSValue → Except JsError Int
  | JSValue.vBigInt n => Except.ok n
  | JSValue.vNum n => Except.ok n
  | JSValue.vBool b => Except.ok (if b then 1 else 0)
  | JSValue.vStr s =>
    match parseBigIntString s with
    | some n => Except.ok n
    | none => Except.error (JsError.raw "SyntaxError" ("Cannot convert " ++ s ++ " to a BigInt"))
  | JSValue.vNull => Except.error (JsError.raw "TypeError" "Cannot convert null to a BigInt")

/-- `parseInt(type.replace('euint', ''))` from the validator's euint arm.
JavaScript `String.replace` with a string pattern replaces only the first
occurrence; as this is only applied to the six `euintN` case-arm strings,
which start with `euint`, it equals dropping those five characters. -/
def euintBits (t : String) : Nat :=
  (strToNatOpt (t.data.drop 5)).getD 0

/-- The six type strings of the validator's shared `euint` case arm. -/
def isEuintType (t : String) : Bool :=
  t = "euint8" || t = "euint16" || t = "euint32" || t = "euint64" ||
    t = "euint128" || t = "euint256"

/-- The three type strings of the validator's shared `ebytes` case arm. -/
def isEbytesType (t : String) : Bool :=
  t = "ebytes64" || t = "ebytes128" || t = "ebytes256"

/-- `parseInt(type.replace('ebytes', ''))` from the validator's ebytes arm
(first-occurrence replace on `ebytesN` = dropping the six prefix characters). -/
def ebytesLen (t : String) : Nat :=
  (strToNatOpt (t.data.drop 6)).getD 0

/-- The regular expression `^0x[0-9a-fA-F]{40}$` of the eaddress arm. -/
def addressOk (s : String) : Bool :=
  strStartsWith s.data ['0', 'x'] && (s.data.drop 2).length == 40 &&
    (s.data.drop 2).all isHexChar

/-- The two range checks of the validator's euint arm, after the
arbitrary-precision coercion produced `numVal`: fail if negative, fail if
above `maxValue = (1n << BigInt(maxBits)) - 1n = 2 ^ maxBits - 1`, with the
numeric max in the error context. -/
def euintRangeCheck (t : String) (w : JSValue) (numVal : Int) : Except JsError Unit :=
  if numVal < 0 then
    Except.error (createEncryptionError
      ("Value must be non-negative for " ++ t)
      [("type", CtxVal.str t), ("value", CtxVal.js w)] none)
  else if ((2 : Int) ^ euintBits t - 1) < numVal then
    Except.error (createEncryptionError
      ("Value exceeds maximum for " ++ t ++ ": " ++
        toString ((2 : Int) ^ euintBits t - 1))
      [("type", CtxVal.str t), ("value", CtxVal.js w),
       ("max", CtxVal.str (toString ((2 : Int) ^ euintBits t - 1)))] none)
  else Except.ok ()

/-- `validateEncryptionValue` from core/encryption.ts.  The argument is
modelled as the `{ type, value }` object itself, so the leading
`!value || typeof value !== 'object'` guard of the source can never fire and
is omitted; `!type` on a string is the `type = ""` test.  In the euint arm
the source computes `maxValue = (1n << BigInt(maxBits)) - 1n`, written here
as `2 ^ maxBits - 1`.  In the ebytes arm, `val.replace('0x', '')` replaces
only the first occurrence in JavaScript and runs after the `startsWith "0x"`
guard, hence it is `s.drop 2`; the JavaScript length comparison
`hexValue.length / 2 !== expectedBytes` is exact (float) division, hence it
is `length ≠ expectedBytes * 2`. -/
def validateEncryptionValue : EncryptionValue → Except JsError Unit
  | ⟨t, w⟩ =>
    if t = "" then
      Except.error (createEncryptionError "Missing FHE type in encryption value"
        [("value", CtxVal.encVal ⟨t, w⟩)] none)
    else if w = JSValue.vNull then
      Except.error (createEncryptionError
        ("Value cannot be null or undefined for " ++ t)
        [("type", CtxVal.str t), ("value", CtxVal.js w)] none)
    else if t = "ebool" then
      match w with
      | JSValue.vBool _ => Except.ok ()
      | w' =>
        Except.error (createEncryptionError
          ("Type mismatch: expected boolean for " ++ t ++ ", got " ++ jsTypeof w')
          [("type", CtxVal.str t), ("value", CtxVal.js w')] none)
    else if isEuintType t then
      match (match w with
             | JSValue.vBigInt n => Except.ok n
             | w' => jsBigInt w') with
      | Except.error e => Except.error e
      | Except.ok numVal => euintRangeCheck t w numVal
    else if t = "eaddress" then
      match w with
      | JSValue.vStr s =>
        if addressOk s then Except.ok ()
        else
          Except.error (createEncryptionError
            ("Invalid Ethereum address format for " ++ t ++
              ". Expected 0x followed by 40 hex characters.")
            [("type", CtxVal.str t), ("value", CtxVal.str s),
             ("expected", CtxVal.str "0x + 40 hex chars (e.g., 0x1234...abcd)"),
             ("got", CtxVal.str s)] none)
      | w' =>
        Except.error (createEncryptionError
          ("Expected string for " ++ t ++ ", got " ++ jsTypeof w')
          [("type", CtxVal.str t), ("value", CtxVal.js w')] none)
    else if isEbytesType t then
      match w with
      | JSValue.vStr s =>
        if ¬ strStartsWith s.data ['0', 'x'] then
          Except.error (createEncryptionError
            (t ++ " value must start with 0x prefix")
            [("type", CtxVal.str t), ("value", CtxVal.str s),
             ("hint", CtxVal.str "Add 0x prefix to your hex string")] none)
        else if ¬ (s.data.drop 2).all isHexChar then
          Except.error (createEncryptionError
            ("Invalid hex characters in " ++ t ++ " value")
            [("type", CtxVal.str t), ("value", CtxVal.str s),
             ("hint", CtxVal.str "Only 0-9 and a-f characters allowed after 0x")] none)
        else if (s.data.drop 2).length ≠ ebytesLen t * 2 then
          Except.error (createEncryptionError
            ("Invalid byte length for " ++ t)
            [("type", CtxVal.str t),
             ("expected", CtxVal.str (toString (ebytesLen t) ++ " bytes")),
             ("hint", CtxVal.str ("Your hex string should be " ++
               toString (ebytesLen t * 2) ++ " characters long after 0x"))] none)
        else Except.ok ()
      | w' =>
        Except.error (createEncryptionError
          ("Expected hex string for " ++ t ++ ", got " ++ jsTypeof w')
          [("type", CtxVal.str t), ("value", CtxVal.js w')] none)
    else
      Except.error (createEncryptionError ("Unknown FHE type: " ++ t)
        [("type", CtxVal.str t)] none)

/-- The `methodMap` record of `getEncryptionMethod` in core/encryption.ts,
as the partial lookup `type ∈ methodMap`. -/
def methodMap : String → Option String := fun t =>
  if t = "ebool" then some "addBool"
  else if t = "euint8" then some "add8"
  else if t = "euint16" then some "add16"
  else if t = "euint32" then some "add32"
  else if t = "euint64" then some "add64"
  else if t = "euint128" then some "add128"
  else if t = "euint256" then some "add256"
  else if t = "eaddress" then some "addAddress"
  else if t = "ebytes64" then some "addBytes64"
  else if t = "ebytes128" then some "addBytes128"
  else if t = "ebytes256" then some "addBytes256"
  else none

/-- `getEncryptionMethod` from core/encryption.ts: maps an FHE type to the
name of the builder method, throwing for a type outside `methodMap`. -/
def getEncryptionMethod (t : String) : Except JsError String :=
  match methodMap t with
  | some m => Except.ok m
  | none =>
    Except.error (createEncryptionError ("Unsupported FHE type: " ++ t)
      [("type", CtxVal.str t)] none)

/-- The single remote interaction `encryptScalar` would perform: one builder
for the (contract, user) pair, one type-specific append, one finalize. -/
structure ScalarPlan where
  contractAddress : String
  userAddress : String
  method : String
  value : JSValue
deriving Repr

/-- `encryptScalar` from core/encryption.ts.  The validation call sits
*outside* the try/catch, so its exceptions (including raw coercion errors)
propagate unchanged; errors raised inside the try are re-thrown as-is when
they are `FhevmError`s and wrapped into `Failed to encrypt ...` otherwise.
The remote builder itself is not executed: the `ok` result is the planned
remote interaction (the `method in input` existence check and the remote
`encrypt()` finalizer concern the remote object and are modelled as
succeeding for a conforming instance). -/
def encryptScalar (instanceReady : Bool) (contractAddress userAddress : String)
    (v : EncryptionValue) : Except JsError ScalarPlan :=
  if ¬ instanceReady then
    Except.error (createInitError FhevmErrorCode.INIT_FAILED
      "FHEVM instance not initialized"
      (some "Call createFhevmClient() or wait for initialization to complete") none)
  else
    match validateEncryptionValue v with
    | Except.error e => Except.error e
    | Except.ok _ =>
      match getEncryptionMethod v.type with
      | Except.ok m => Except.ok ⟨contractAddress, userAddress, m, v.value⟩
      | Except.error e =>
        if isFhevmError e then Except.error e
        else
          Except.error (createEncryptionError
            ("Failed to encrypt " ++ v.type ++ " value")
            [("type", CtxVal.str v.type), ("value", CtxVal.js v.value)] (some e))

/-- The indexed validation loop of `encryptBatch`
(`for (let i = 0; i < values.length; i++) { try { validate } catch { wrap } }`):
the first failing element aborts the loop, wrapped with its index. -/
def validateValuesFrom : Nat → List EncryptionValue → Except JsError Unit
  | _, [] => Except.ok ()
  | i, v :: rest =>
    match validateEncryptionValue v with
    | Except.ok _ => validateValuesFrom (i + 1) rest
    | Except.error e =>
      Except.error (createEncryptionError
        ("Validation failed for value at index " ++ toString i)
        [("index", CtxVal.num i), ("value", CtxVal.encVal v)] (some e))

/-- The append loop of `encryptBatch`
(`for (const value of values) { const method = getEncryptionMethod(value.type);
input[method](value.value); }`), recording the appends in order. -/
def buildAppends : List EncryptionValue → Except JsError (List (String × JSValue))
  | [] => Except.ok []
  | v :: rest =>
    match getEncryptionMethod v.type with
    | Except.error e => Except.error e
    | Except.ok m =>
      match buildAppends rest with
      | Except.error e => Except.error e
      | Except.ok tail => Except.ok ((m, v.value) :: tail)

/-- The single remote interaction `encryptBatch` would perform: exactly one
`createEncryptedInput(contract, user)` builder, the ordered list of
type-specific appends, and one `encrypt()` finalize for the whole batch. -/
structure BatchPlan where
  contractAddress : String
  userAddress : String
  appends : List (String × JSValue)
deriving Repr

/-- `encryptBatch` from core/encryption.ts: instance guard, empty-list guard,
the indexed validation loop (all before any remote interaction), then the
try-block that creates one builder, appends every value in order and
finalizes once; non-`FhevmError` exceptions of the try-block are wrapped as
`Failed to batch encrypt ...`.  An `Except.error` result means no builder was
ever created and no relayer round-trip consumed. -/
def encryptBatch (instanceReady : Bool) (contractAddress userAddress : String)
    (values : List EncryptionValue) : Except JsError BatchPlan :=
  if ¬ instanceReady then
    Except.error (createInitError FhevmErrorCode.INIT_FAILED
      "FHEVM instance not initialized"
      (some "Call createFhevmClient() or wait for initialization to complete") none)
  else if values.length = 0 then
    Except.error (createEncryptionError "No values provided for encryption"
      [("count", CtxVal.num 0)] none)
  else
    match validateValuesFrom 0 values with
    | Except.error e => Except.error e
    | Except.ok _ =>
      match buildAppends values with
      | Except.ok appends => Except.ok ⟨contractAddress, userAddress, appends⟩
      | Except.error e =>
        if isFhevmError e then Except.error e
        else
          Except.error (createEncryptionError
            ("Failed to batch encrypt " ++ toString values.length ++ " values")
            [("count", CtxVal.num values.length)] (some e))

/-- `encryptStruct` from core/encryption.ts.  A JavaScript object literal
enumerates its string keys in insertion order, so the struct is modelled as
the association list of its fields in enumeration order; `fields :=
Object.keys(struct)` and `values := fields.map(f => struct[f])` are then the
two projections. -/
def encryptStruct (instanceReady : Bool) (contractAddress userAddress : String)
    (struct : List (String × EncryptionValue)) :
    Except JsError (BatchPlan × List String) :=
  let fields := struct.map Prod.fst
  let values := struct.map Prod.snd
  match encryptBatch instanceReady contractAddress userAddress values with
  | Except.ok result => Except.ok (result, fields)
  | Except.error e => Except.error e

/-- Modelled from the spec (section 4.2): `encryptStruct` is sugar over
`encryptBatch`, returning the batch result of the field values in
field-enumeration order unchanged, together with the field names in that
same order. -/
def encryptStructSpec (instanceReady : Bool) (contractAddress userAddress : String)
    (struct : List (String × EncryptionValue)) :
    Except JsError (BatchPlan × List String) :=
  (encryptBatch instanceReady contractAddress userAddress
    (struct.map Prod.snd)).map (fun r => (r, struct.map Prod.fst))

/-- The result shape `{ handles, inputProof }` returned by the remote
builder's `encrypt()` finalizer. -/
structure EncryptionResultShape where
  handles : List String
  inputProof : String
deriving Repr

/-- A conforming remote builder (spec section 6): finalizing a builder with
`k` appended values yields one handle per appended value, in append order
(`gen i` being the handle the relayer mints for position `i`), together with
one `inputProof` for the whole batch. -/
def runEncryptedInput (gen : Nat → String) (proof : String) (plan : BatchPlan) :
    EncryptionResultShape :=
  ⟨(List.range plan.appends.length).map gen, proof⟩

/-- `guardedOperation` from core/errors.ts: re-throws `FhevmError`s
unchanged and wraps anything else as `UNKNOWN_ERROR`; an explicit
`errorTransform` (typed in the source to produce an `FhevmError`) takes
precedence.  All `FhevmClient` call sites pass no transform. -/
def guardedOperation {α : Type} (op : Except JsError α)
    (errorTransform : Option (JsError → JsError)) : Except JsError α :=
  match op with
  | Except.ok x => Except.ok x
  | Except.error e =>
    match errorTransform with
    | some t => Except.error (t e)
    | none =>
      if isFhevmError e then Except.error e
      else
        Except.error (JsError.fhevm FhevmErrorCode.UNKNOWN_ERROR (errMessage e)
          none [] (some e))

/-- `DecryptionRequest` from core/types.ts. -/
structure DecryptionRequest where
  handle : String
  contractAddress : String
deriving DecidableEq, Repr

/-- `DecryptionSignature` from core/types.ts.  `startTimestamp` is a Unix
timestamp in whole seconds; `durationDays` a number of days. -/
structure DecryptionSignature where
  publicKey : String
  privateKey : String
  signature : String
  startTimestamp : Int
  durationDays : Int
  userAddress : String
  contractAddresses : List String
deriving Repr

/-- The all-zero 32-byte handle (uninitialized ciphertext sentinel). -/
def zeroHandle : String :=
  "0x0000000000000000000000000000000000000000000000000000000000000000"

/-- `signature.replace('0x', '')` on the signature hex string: JavaScript
replaces the first occurrence, modelled as stripping a leading `0x`. -/
def stripHexPrefix (s : String) : String :=
  if strStartsWith s.data ['0', 'x'] then ⟨s.data.drop 2⟩ else s

/-- `isSignatureValid` from core/decryption.ts:
`now < startTimestamp + durationDays * 24 * 60 * 60`, where `now` is
`Math.floor(Date.now() / 1000)` passed explicitly (whole seconds). -/
def isSignatureValid (now : Int) (signature : DecryptionSignature) : Bool :=
  decide (now < signature.startTimestamp + signature.durationDays * 24 * 60 * 60)

/-- `getSignatureRemainingTime` from core/decryption.ts:
`Math.max(0, expiresAt - now)` in seconds. -/
def getSignatureRemainingTime (now : Int) (signature : DecryptionSignature) : Int :=
  max 0 (signature.startTimestamp + signature.durationDays * 24 * 60 * 60 - now)

/-- The argument list `userDecrypt` passes to the remote
`instance.userDecrypt(...)` call. -/
structure UserDecryptCall where
  pairs : List (String × String)
  privateKey : String
  publicKey : String
  signatureHex : String
  contractAddresses : List String
  userAddress : String
  startTimestampStr : String
  durationDaysStr : String
deriving Repr

/-- `userDecrypt` from core/decryption.ts.  Local checks in source order:
instance guard, empty-requests guard, missing-signature guard, expiry guard
(`isSignatureValid`), all before the remote call; the `ok` result is the
remote call that is then performed (the surrounding try/catch classifies
*remote* failures and is not part of the local model).  No per-request handle
validation is performed.  An `Except.error` result means the remote instance
was never called. -/
def userDecrypt (now : Int) (instanceReady : Bool)
    (requests : List DecryptionRequest) (signature : Option DecryptionSignature) :
    Except JsError UserDecryptCall :=
  if ¬ instanceReady then
    Except.error (createInitError FhevmErrorCode.INIT_FAILED
      "FHEVM instance not initialized"
      (some "Call createFhevmClient() or wait for initialization to complete") none)
  else if requests.length = 0 then
    Except.error (createDecryptionError "No decryption requests provided"
      [("count", CtxVal.num 0)] none)
  else
    match signature with
    | none =>
      Except.error (createDecryptionError "Decryption signature required" []
        (some (JsError.raw "Error" (codeString FhevmErrorCode.SIGNATURE_REQUIRED))))
    | some sig =>
      if ¬ isSignatureValid now sig then
        Except.error (createDecryptionError "Decryption signature has expired"
          [("expiresAt", CtxVal.num (sig.startTimestamp + sig.durationDays * 24 * 60 * 60)),
           ("now", CtxVal.num now)]
          (some (JsError.raw "Error" (codeString FhevmErrorCode.SIGNATURE_EXPIRED))))
      else
        Except.ok ⟨requests.map (fun r => (r.handle, r.contractAddress)),
          sig.privateKey, sig.publicKey, stripHexPrefix sig.signature,
          sig.contractAddresses, sig.userAddress,
          toString sig.startTimestamp, toString sig.durationDays⟩

/-- `publicDecrypt` from core/decryption.ts: instance guard, then the
fail-fast check `!handle || handle === '0x000...000'` (a falsy string is the
empty string); the `ok` result is the `(handle, contractAddress)` pair passed
to the remote `instance.publicDecrypt` call. -/
def publicDecrypt (instanceReady : Bool) (handle : String)
    (contractAddress : String) : Except JsError (String × String) :=
  if ¬ instanceReady then
    Except.error (createInitError FhevmErrorCode.INIT_FAILED
      "FHEVM instance not initialized"
      (some "Call createFhevmClient() or wait for initialization to complete") none)
  else if handle = "" ∨ handle = zeroHandle then
    Except.error (createDecryptionError "Invalid ciphertext handle"
      [("handle", CtxVal.str handle)] none)
  else Except.ok (handle, contractAddress)

/-- `FhevmClient._assertReady`: operations are rejected unless the client
status is `ready` (in which case `_instance` is defined). -/
def assertReady (ready : Bool) : Except JsError Unit :=
  if ¬ ready then
    Except.error (createInitError FhevmErrorCode.INIT_FAILED
      "Client is not ready"
      (some "Wait for initialization to complete or call init() manually") none)
  else Except.ok ()

/-- `FhevmClient.encrypt`: `_assertReady()` then
`guardedOperation(() => encryptScalar(this._instance!, ...))`.  When the
ready assertion passes, the instance exists, so the inner orchestrator runs
with `instanceReady = true`. -/
def clientEncrypt (ready : Bool) (contractAddress userAddress : String)
    (v : EncryptionValue) : Except JsError ScalarPlan :=
  match assertReady ready with
  | Except.error e => Except.error e
  | Except.ok _ => guardedOperation (encryptScalar true contractAddress userAddress v) none

/-- `FhevmClient.encryptBatch`: `_assertReady()` then a guarded
`encryptBatch`. -/
def clientEncryptBatch (ready : Bool) (contractAddress userAddress : String)
    (values : List EncryptionValue) : Except JsError BatchPlan :=
  match assertReady ready with
  | Except.error e => Except.error e
  | Except.ok _ =>
    guardedOperation (encryptBatch true contractAddress userAddress values) none

/-- `FhevmClient.encryptStruct`: `_assertReady()` then a guarded
`encryptStruct`. -/
def clientEncryptStruct (ready : Bool) (contractAddress userAddress : String)
    (struct : List (String × EncryptionValue)) :
    Except JsError (BatchPlan × List String) :=
  match assertReady ready with
  | Except.error e => Except.error e
  | Except.ok _ =>
    guardedOperation (encryptStruct true contractAddress userAddress struct) none

/-- `FhevmClient.decrypt`: `_assertReady()` then a guarded `userDecrypt`. -/
def clientDecrypt (now : Int) (ready : Bool) (requests : List DecryptionRequest)
    (signature : Option DecryptionSignature) : Except JsError UserDecryptCall :=
  match assertReady ready with
  | Except.error e => Except.error e
  | Except.ok _ => guardedOperation (userDecrypt now true requests signature) none

/-- `FhevmClient.publicDecrypt`: `_assertReady()` then a guarded
`publicDecrypt`. -/
def clientPublicDecrypt (ready : Bool) (handle : String)
    (contractAddress : String) : Except JsError (String × String) :=
  match assertReady ready with
  | Except.error e => Except.error e
  | Except.ok _ => guardedOperation (publicDecrypt true handle contractAddress) none

/-- An operation outcome is *classified* when it either succeeded or failed
with an `FhevmError` (never a raw, unclassified exception). -/
def resultClassified {α : Type} : Except JsError α → Bool
  | Except.ok _ => true
  | Except.error e => isFhevmError e

/-- A validator outcome respects the taxonomy restriction when every
`FhevmError` it throws carries the code `ENCRYPTION_FAILED`. -/
def validatorCodeOk : Except JsError Unit → Bool
  | Except.ok _ => true
  | Except.error e =>
    if isFhevmError e then errCode e == some FhevmErrorCode.ENCRYPTION_FAILED
    else true

/- ------------------------------------------------------------------ -/
/- Helper lemmas -/
/- ------------------------------------------------------------------ -/

lemma jsBigInt_error_raw {w : JSValue} {e : JsError}
    (h : jsBigInt w = Except.error e) : isFhevmError e = false := by
  cases w with
  | vBool b => simp [jsBigInt] at h
  | vNum n => simp [jsBigInt] at h
  | vBigInt n => simp [jsBigInt] at h
  | vStr s =>
    simp only [jsBigInt] at h
    cases hp : parseBigIntString s with
    | some n => rw [hp] at h; simp at h
    | none =>
      rw [hp] at h
      simp only [Except.error.injEq] at h
      subst h
      rfl
  | vNull =>
    simp only [jsBigInt, Except.error.injEq] at h
    subst h
    rfl

lemma guardedOperation_classified {α : Type} (op : Except JsError α) :
    resultClassified (guardedOperation op none) = true := by
  cases op with
  | ok x => rfl
  | error e =>
    show resultClassified (if isFhevmError e = true then Except.error e
        else Except.error (JsError.fhevm FhevmErrorCode.UNKNOWN_ERROR (errMessage e)
          none [] (some e))) = true
    by_cases h : isFhevmError e = true
    · rw [if_pos h]
      show isFhevmError e = true
      exact h
    · rw [if_neg h]
      rfl

/- ------------------------------------------------------------------ -/
/- Claim theorems -/
/- ------------------------------------------------------------------ -/

lemma euintRangeCheck_spec (t : String) (w : JSValue) (v : Int) :
    (euintRangeCheck t w v = Except.ok () ↔
      0 ≤ v ∧ v ≤ 2 ^ euintBits t - 1)
  ∧ ((2 : Int) ^ euintBits t - 1 < v →
      ∃ e, euintRangeCheck t w v = Except.error e ∧
        ("max", CtxVal.str (toString ((2 : Int) ^ euintBits t - 1))) ∈ errContext e) := by
  unfold euintRangeCheck
  have hX0 : (0 : Int) < 2 ^ euintBits t := pow_pos (by norm_num) _
  generalize (2 : Int) ^ euintBits t = X at *
  constructor
  · split_ifs with h1 h2
    · constructor
      · intro h; exact h.elim
      · intro hr; exfalso; omega
    · constructor
      · intro h; exact h.elim
      · intro hr; exfalso; omega
    · constructor
      · intro _; omega
      · intro _; rfl
  · intro hgt
    rw [if_neg (by omega), if_pos hgt]
    exact ⟨_, rfl, by simp [errContext, createEncryptionError]⟩

/-- **C1**: for every N in {8,16,32,64,128,256} and every integer v (whether
a JavaScript `number` or a `bigint`), `validateEncryptionValue({type:
euintN, value: v})` succeeds iff `0 ≤ v ≤ 2^N - 1`; when `v > 2^N - 1` the
thrown error's context includes the numeric maximum `2^N - 1` (as the
decimal string the source stores via `maxValue.toString()`). -/
theorem euint_range_validation (N : Nat)
    (hN : N = 8 ∨ N = 16 ∨ N = 32 ∨ N = 64 ∨ N = 128 ∨ N = 256) (v : Int) :
    (validateEncryptionValue ⟨"euint" ++ toString N, JSValue.vBigInt v⟩ =
        Except.ok () ↔ 0 ≤ v ∧ v ≤ 2 ^ N - 1)
  ∧ (validateEncryptionValue ⟨"euint" ++ toString N, JSValue.vNum v⟩ =
        Except.ok () ↔ 0 ≤ v ∧ v ≤ 2 ^ N - 1)
  ∧ ((2 : Int) ^ N - 1 < v →
      ∃ e, validateEncryptionValue ⟨"euint" ++ toString N, JSValue.vBigInt v⟩ =
          Except.error e
        ∧ ("max", CtxVal.str (toString ((2 : Int) ^ N - 1))) ∈ errContext e) := by
  rcases hN with rfl | rfl | rfl | rfl | rfl | rfl
  · have h1 := euintRangeCheck_spec "euint8" (JSValue.vBigInt v) v
    have h2 := euintRangeCheck_spec "euint8" (JSValue.vNum v) v
    rw [show euintBits "euint8" = 8 from rfl] at h1 h2
    rw [show ("euint" ++ toString 8 : String) = "euint8" from rfl,
      show validateEncryptionValue ⟨"euint8", JSValue.vBigInt v⟩ =
        euintRangeCheck "euint8" (JSValue.vBigInt v) v from rfl,
      show validateEncryptionValue ⟨"euint8", JSValue.vNum v⟩ =
        euintRangeCheck "euint8" (JSValue.vNum v) v from rfl]
    exact ⟨h1.1, h2.1, h1.2⟩
  · have h1 := euintRangeCheck_spec "euint16" (JSValue.vBigInt v) v
    have h2 := euintRangeCheck_spec "euint16" (JSValue.vNum v) v
    rw [show euintBits "euint16" = 16 from rfl] at h1 h2
    rw [show ("euint" ++ toString 16 : String) = "euint16" from rfl,
      show validateEncryptionValue ⟨"euint16", JSValue.vBigInt v⟩ =
        euintRangeCheck "euint16" (JSValue.vBigInt v) v from rfl,
      show validateEncryptionValue ⟨"euint16", JSValue.vNum v⟩ =
        euintRangeCheck "euint16" (JSValue.vNum v) v from rfl]
    exact ⟨h1.1, h2.1, h1.2⟩
  · have h1 := euintRangeCheck_spec "euint32" (JSValue.vBigInt v) v
    have h2 := euintRangeCheck_spec "euint32" (JSValue.vNum v) v
    rw [show euintBits "euint32" = 32 from rfl] at h1 h2
    rw [show ("euint" ++ toString 32 : String) = "euint32" from rfl,
      show validateEncryptionValue ⟨"euint32", JSValue.vBigInt v⟩ =
        euintRangeCheck "euint32" (JSValue.vBigInt v) v from rfl,
      show validateEncryptionValue ⟨"euint32", JSValue.vNum v⟩ =
        euintRangeCheck "euint32" (JSValue.vNum v) v from rfl]
    exact ⟨h1.1, h2.1, h1.2⟩
  · have h1 := euintRangeCheck_spec "euint64" (JSValue.vBigInt v) v
    have h2 := euintRangeCheck_spec "euint64" (JSValue.vNum v) v
    rw [show euintBits "euint64" = 64 from rfl] at h1 h2
    rw [show ("euint" ++ toString 64 : String) = "euint64" from rfl,
      show validateEncryptionValue ⟨"euint64", JSValue.vBigInt v⟩ =
        euintRangeCheck "euint64" (JSValue.vBigInt v) v from rfl,
      show validateEncryptionValue ⟨"euint64", JSValue.vNum v⟩ =
        euintRangeCheck "euint64" (JSValue.vNum v) v from rfl]
    exact ⟨h1.1, h2.1, h1.2⟩
  · have h1 := euintRangeCheck_spec "euint128" (JSValue.vBigInt v) v
    have h2 := euintRangeCheck_spec "euint128" (JSValue.vNum v) v
    rw [show euintBits "euint128" = 128 from rfl] at h1 h2
    rw [show ("euint" ++ toString 128 : String) = "euint128" from rfl,
      show validateEncryptionValue ⟨"euint128", JSValue.vBigInt v⟩ =
        euintRangeCheck "euint128" (JSValue.vBigInt v) v from rfl,
      show validateEncryptionValue ⟨"euint128", JSValue.vNum v⟩ =
        euintRangeCheck "euint128" (JSValue.vNum v) v from rfl]
    exact ⟨h1.1, h2.1, h1.2⟩
  · have h1 := euintRangeCheck_spec "euint256" (JSValue.vBigInt v) v
    have h2 := euintRangeCheck_spec "euint256" (JSValue.vNum v) v
    rw [show euintBits "euint256" = 256 from rfl] at h1 h2
    rw [show ("euint" ++ toString 256 : String) = "euint256" from rfl,
      show validateEncryptionValue ⟨"euint256", JSValue.vBigInt v⟩ =
        euintRangeCheck "euint256" (JSValue.vBigInt v) v from rfl,
      show validateEncryptionValue ⟨"euint256", JSValue.vNum v⟩ =
        euintRangeCheck "euint256" (JSValue.vNum v) v from rfl]
    exact ⟨h1.1, h2.1, h1.2⟩

/-- Witness for C1 at N = 8, v = 300: validation fails (300 > 255) and the
error context carries the numeric maximum. -/
theorem euint_range_validation_witness :
    (validateEncryptionValue ⟨"euint" ++ toString 8, JSValue.vBigInt 300⟩ =
        Except.ok () ↔ 0 ≤ (300 : Int) ∧ (300 : Int) ≤ 2 ^ 8 - 1)
  ∧ ∃ e, validateEncryptionValue ⟨"euint" ++ toString 8, JSValue.vBigInt 300⟩ =
        Except.error e
      ∧ ("max", CtxVal.str (toString ((2 : Int) ^ 8 - 1))) ∈ errContext e :=
  ⟨(euint_range_validation 8 (Or.inl rfl) 300).1,
   (euint_range_validation 8 (Or.inl rfl) 300).2.2 (by norm_num)⟩

/-- **C6**: `isSignatureValid` returns `true` iff
`now < startTimestamp + durationDays * 86400` (whole-second clock); it is
`true` at creation time when `durationDays > 0`, `false` once
`now ≥ startTimestamp + durationDays * 86400`, and once `false` it never
becomes `true` again as time advances (one-directional validity). -/
theorem signature_validity_window (sig : DecryptionSignature) (now : Int) :
    (isSignatureValid now sig = true ↔
      now < sig.startTimestamp + sig.durationDays * 86400)
  ∧ (0 < sig.durationDays → isSignatureValid sig.startTimestamp sig = true)
  ∧ (sig.startTimestamp + sig.durationDays * 86400 ≤ now →
      isSignatureValid now sig = false)
  ∧ (∀ later : Int, now ≤ later → isSignatureValid now sig = false →
      isSignatureValid later sig = false) := by
  refine ⟨?_, ?_, ?_, ?_⟩
  · simp only [isSignatureValid, decide_eq_true_eq]
    omega
  · intro h
    simp only [isSignatureValid, decide_eq_true_eq]
    omega
  · intro h
    simp only [isSignatureValid, decide_eq_false_iff_not]
    omega
  · intro later hle h
    simp only [isSignatureValid, decide_eq_false_iff_not] at h ⊢
    omega

/-- Witness for C6 at a concrete signature (start 0, one day): valid at
creation, expired at 86400 seconds, still expired at 90000 seconds. -/
theorem signature_validity_window_witness :
    isSignatureValid 0 ⟨"pk", "sk", "0xsig", 0, 1, "0xuser", []⟩ = true
  ∧ isSignatureValid 86400 ⟨"pk", "sk", "0xsig", 0, 1, "0xuser", []⟩ = false
  ∧ isSignatureValid 90000 ⟨"pk", "sk", "0xsig", 0, 1, "0xuser", []⟩ = false :=
  ⟨(signature_validity_window ⟨"pk", "sk", "0xsig", 0, 1, "0xuser", []⟩ 0).2.1
      (by norm_num),
   (signature_validity_window ⟨"pk", "sk", "0xsig", 0, 1, "0xuser", []⟩ 86400).2.2.1
      (by norm_num),
   (signature_validity_window ⟨"pk", "sk", "0xsig", 0, 1, "0xuser", []⟩ 86400).2.2.2
      90000 (by norm_num)
      ((signature_validity_window ⟨"pk", "sk", "0xsig", 0, 1, "0xuser", []⟩ 86400).2.2.1
        (by norm_num))⟩

/-- **C10**: at the same instant, `isSignatureValid` is `true` exactly when
`getSignatureRemainingTime` is positive (both derive the same expiry
`startTimestamp + durationDays * 86400`), and the remaining time is never
negative. -/
theorem signature_remaining_time_consistent (sig : DecryptionSignature) (now : Int) :
    (isSignatureValid now sig = true ↔ 0 < getSignatureRemainingTime now sig)
  ∧ 0 ≤ getSignatureRemainingTime now sig := by
  constructor
  · simp only [isSignatureValid, getSignatureRemainingTime, decide_eq_true_eq,
      lt_max_iff]
    omega
  · exact le_max_left 0 _

/-- **C5**: `userDecrypt` performs its local checks before the remote call
and in order: with a ready instance, an empty request list fails with the
"no requests" error (regardless of what the signature argument is — the
emptiness check precedes both signature checks), a missing signature fails
with the "signature required" error, and an expired signature fails with the
"signature expired" error.  Every such result is an `Except.error`, i.e. the
remote `instance.userDecrypt` call (the `UserDecryptCall` of an `ok` result)
is never reached. -/
theorem userDecrypt_local_checks (now : Int) (requests : List DecryptionRequest)
    (sig : DecryptionSignature) (osig : Option DecryptionSignature) :
    (userDecrypt now true [] osig =
      Except.error (createDecryptionError "No decryption requests provided"
        [("count", CtxVal.num 0)] none))
  ∧ (requests ≠ [] → userDecrypt now true requests none =
      Except.error (createDecryptionError "Decryption signature required" []
        (some (JsError.raw "Error" (codeString FhevmErrorCode.SIGNATURE_REQUIRED)))))
  ∧ (requests ≠ [] → isSignatureValid now sig = false →
      userDecrypt now true requests (some sig) =
        Except.error (createDecryptionError "Decryption signature has expired"
          [("expiresAt", CtxVal.num
              (sig.startTimestamp + sig.durationDays * 24 * 60 * 60)),
           ("now", CtxVal.num now)]
          (some (JsError.raw "Error" (codeString FhevmErrorCode.SIGNATURE_EXPIRED))))) := by
  refine ⟨rfl, ?_, ?_⟩
  · intro h
    simp [userDecrypt, List.length_eq_zero, h]
  · intro h hv
    simp [userDecrypt, List.length_eq_zero, h, hv]

/-- Witness for C5: with one request and a signature created at time 0 for
one day, evaluated at time 90000, `userDecrypt` fails locally with the
expiry error; with the empty list it fails with the "no requests" error. -/
theorem userDecrypt_local_checks_witness :
    userDecrypt 90000 true [] (some ⟨"pk", "sk", "0xsig", 0, 1, "0xuser", []⟩) =
      Except.error (createDecryptionError "No decryption requests provided"
        [("count", CtxVal.num 0)] none)
  ∧ userDecrypt 90000 true [⟨"0xh", "0xc"⟩]
      (some ⟨"pk", "sk", "0xsig", 0, 1, "0xuser", []⟩) =
    Except.error (createDecryptionError "Decryption signature has expired"
      [("expiresAt", CtxVal.num (0 + 1 * 24 * 60 * 60)), ("now", CtxVal.num 90000)]
      (some (JsError.raw "Error" (codeString FhevmErrorCode.SIGNATURE_EXPIRED)))) :=
  ⟨(userDecrypt_local_checks 90000 [⟨"0xh", "0xc"⟩] ⟨"pk", "sk", "0xsig", 0, 1, "0xuser", []⟩
      (some ⟨"pk", "sk", "0xsig", 0, 1, "0xuser", []⟩)).1,
   (userDecrypt_local_checks 90000 [⟨"0xh", "0xc"⟩] ⟨"pk", "sk", "0xsig", 0, 1, "0xuser", []⟩
      (some ⟨"pk", "sk", "0xsig", 0, 1, "0xuser", []⟩)).2.2 (by decide) (by rfl)⟩

/-- **C2, counterexample**: a `userDecrypt` request whose handle is the
all-zero 32-byte sentinel is *not* rejected locally: with a ready instance,
a nonempty request list and a currently valid signature, `userDecrypt`
returns the remote call (an `Except.ok`), forwarding the all-zero handle to
the remote instance, contradicting the claim that both decryption paths
reject the all-zero handle before calling the remote instance. -/
theorem userDecrypt_zero_handle_cex :
    userDecrypt 0 true [⟨zeroHandle, "0xc"⟩]
      (some ⟨"pk", "sk", "0xsig", 0, 1, "0xuser", ["0xc"]⟩) =
    Except.ok ⟨[(zeroHandle, "0xc")], "sk", "pk", "sig", ["0xc"], "0xuser", "0", "1"⟩ := by
  rfl

/-- **C2, amended**: only `publicDecrypt` rejects the all-zero sentinel
handle before calling the remote instance; `userDecrypt` performs no
per-request handle check at all — once its local checks pass (nonempty
requests, present and unexpired signature) it forwards every request,
all-zero handles included, to the remote instance. -/
theorem zero_handle_rejection (c : String) (now : Int)
    (requests : List DecryptionRequest) (sig : DecryptionSignature) :
    (publicDecrypt true zeroHandle c =
      Except.error (createDecryptionError "Invalid ciphertext handle"
        [("handle", CtxVal.str zeroHandle)] none))
  ∧ (requests ≠ [] → isSignatureValid now sig = true →
      userDecrypt now true requests (some sig) =
        Except.ok ⟨requests.map (fun r => (r.handle, r.contractAddress)),
          sig.privateKey, sig.publicKey, stripHexPrefix sig.signature,
          sig.contractAddresses, sig.userAddress,
          toString sig.startTimestamp, toString sig.durationDays⟩) := by
  constructor
  · rfl
  · intro h hv
    simp [userDecrypt, List.length_eq_zero, h, hv]

/-- Witness for C2 (amended): the zero-handle rejection of `publicDecrypt`,
and the unfiltered forwarding by `userDecrypt` of a request list containing
the zero handle, at concrete inputs. -/
theorem zero_handle_rejection_witness :
    (publicDecrypt true zeroHandle "0xc" =
      Except.error (createDecryptionError "Invalid ciphertext handle"
        [("handle", CtxVal.str zeroHandle)] none))
  ∧ userDecrypt 0 true [⟨zeroHandle, "0xc"⟩, ⟨"0xdeadbeef", "0xc"⟩]
      (some ⟨"pk", "sk", "sig", 0, 365, "0xuser", ["0xc"]⟩) =
    Except.ok ⟨[(zeroHandle, "0xc"), ("0xdeadbeef", "0xc")], "sk", "pk", "sig",
      ["0xc"], "0xuser", "0", "365"⟩ :=
  ⟨(zero_handle_rejection "0xc" 0 [⟨zeroHandle, "0xc"⟩, ⟨"0xdeadbeef", "0xc"⟩]
      ⟨"pk", "sk", "sig", 0, 365, "0xuser", ["0xc"]⟩).1,
   (zero_handle_rejection "0xc" 0 [⟨zeroHandle, "0xc"⟩, ⟨"0xdeadbeef", "0xc"⟩]
      ⟨"pk", "sk", "sig", 0, 365, "0xuser", ["0xc"]⟩).2 (by decide) (by rfl)⟩

lemma validatorCodeOk_if (c : Prop) [Decidable c] (a b : Except JsError Unit)
    (ha : validatorCodeOk a = true) (hb : validatorCodeOk b = true) :
    validatorCodeOk (if c then a else b) = true := by
  split_ifs <;> assumption

/-- **C3, counterexample**: `validateEncryptionValue({type:'euint8',
value:256})` throws an `FhevmError` whose code is `ENCRYPTION_FAILED`
(`ENCRYPT_2000`) — not `INVALID_VALUE` (`ENCRYPT_2002`) and not
`INVALID_INPUT_TYPE` (`ENCRYPT_2001`); the context does contain
max = "255". -/
theorem validator_code_2000_cex :
    ∃ e, validateEncryptionValue ⟨"euint8", JSValue.vNum 256⟩ = Except.error e
      ∧ errCode e = some FhevmErrorCode.ENCRYPTION_FAILED
      ∧ errCode e ≠ some FhevmErrorCode.INVALID_VALUE
      ∧ errCode e ≠ some FhevmErrorCode.INVALID_INPUT_TYPE
      ∧ ("max", CtxVal.str "255") ∈ errContext e
      ∧ codeString FhevmErrorCode.ENCRYPTION_FAILED = "ENCRYPT_2000"
      ∧ codeString FhevmErrorCode.INVALID_VALUE = "ENCRYPT_2002" :=
  ⟨_, rfl, rfl, by decide, by decide, by decide, rfl, rfl⟩

set_option maxHeartbeats 1600000 in
/-- **C3, amended**: every `FhevmError` thrown by the type validator carries
the code `ENCRYPTION_FAILED` (`ENCRYPT_2000`) — the `INVALID_INPUT_TYPE` /
`INVALID_VALUE` codes of the taxonomy are never attached (the only
non-`FhevmError` exceptions are raw coercion errors, see C4); in particular
the out-of-range `euint8` value 256 yields an `ENCRYPTION_FAILED` error
whose context contains max = "255". -/
theorem validator_code_taxonomy (v : EncryptionValue) :
    validatorCodeOk (validateEncryptionValue v) = true
  ∧ validateEncryptionValue ⟨"euint8", JSValue.vNum 256⟩ =
      Except.error (createEncryptionError "Value exceeds maximum for euint8: 255"
        [("type", CtxVal.str "euint8"), ("value", CtxVal.js (JSValue.vNum 256)),
         ("max", CtxVal.str "255")] none) := by
  constructor
  · obtain ⟨t, w⟩ := v
    simp only [validateEncryptionValue]
    cases w with
    | vBool b =>
      split_ifs <;> try rfl
      exact validatorCodeOk_if _ _ _ rfl (validatorCodeOk_if _ _ _ rfl rfl)
    | vNum n =>
      split_ifs <;> try rfl
      exact validatorCodeOk_if _ _ _ rfl (validatorCodeOk_if _ _ _ rfl rfl)
    | vBigInt n =>
      split_ifs <;> try rfl
      exact validatorCodeOk_if _ _ _ rfl (validatorCodeOk_if _ _ _ rfl rfl)
    | vStr s =>
      split_ifs <;> try rfl
      · simp only [jsBigInt]
        cases hp : parseBigIntString s with
        | some m =>
          exact validatorCodeOk_if _ _ _ rfl (validatorCodeOk_if _ _ _ rfl rfl)
        | none => rfl
      · exact validatorCodeOk_if _ _ _ rfl rfl
      · exact validatorCodeOk_if _ _ _ rfl
          (validatorCodeOk_if _ _ _ rfl (validatorCodeOk_if _ _ _ rfl rfl))
    | vNull => split_ifs <;> rfl
  · rfl

/-- **C4, counterexample**: the exported validator lets a raw, unclassified
exception escape: for a `euint8` value whose payload is the non-numeric
string "abc", the `BigInt` coercion inside `validateEncryptionValue` throws
a raw `SyntaxError` (it is not an `FhevmError` and carries no taxonomy
code), and the validation call sits outside any wrapping try/catch. -/
theorem validator_raw_leak_cex :
    validateEncryptionValue ⟨"euint8", JSValue.vStr "abc"⟩ =
      Except.error (JsError.raw "SyntaxError" "Cannot convert abc to a BigInt")
  ∧ isFhevmError (JsError.raw "SyntaxError" "Cannot convert abc to a BigInt") = false :=
  ⟨by rfl, by rfl⟩

/-- **C4, amended**: every exception crossing the `FhevmClient` boundary via
`encrypt`, `encryptBatch`, `encryptStruct`, `decrypt` or `publicDecrypt` is
an `FhevmError` with a code from the closed taxonomy (the not-ready
assertion throws a classified error, and `guardedOperation` re-wraps any
raw exception — including the validator's raw `BigInt` coercion error — as
`UNKNOWN_ERROR`); the *exported validator itself*, however, can throw a raw
coercion error, as the counterexample shows. -/
theorem client_boundary_classified (ready : Bool) (c u : String) (v : EncryptionValue)
    (values : List EncryptionValue) (struct : List (String × EncryptionValue))
    (now : Int) (requests : List DecryptionRequest)
    (osig : Option DecryptionSignature) (handle : String) :
    resultClassified (clientEncrypt ready c u v) = true
  ∧ resultClassified (clientEncryptBatch ready c u values) = true
  ∧ resultClassified (clientEncryptStruct ready c u struct) = true
  ∧ resultClassified (clientDecrypt now ready requests osig) = true
  ∧ resultClassified (clientPublicDecrypt ready handle c) = true := by
  cases ready with
  | false => exact ⟨rfl, rfl, rfl, rfl, rfl⟩
  | true =>
    exact ⟨guardedOperation_classified _, guardedOperation_classified _,
      guardedOperation_classified _, guardedOperation_classified _,
      guardedOperation_classified _⟩

lemma validateValuesFrom_firstError :
    ∀ (values : List EncryptionValue) (k i : Nat) (vi : EncryptionValue) (e0 : JsError),
      values[i]? = some vi →
      validateEncryptionValue vi = Except.error e0 →
      (∀ j, j < i → ∀ vj, values[j]? = some vj →
        validateEncryptionValue vj = Except.ok ()) →
      validateValuesFrom k values = Except.error (createEncryptionError
        ("Validation failed for value at index " ++ toString (k + i))
        [("index", CtxVal.num ((k + i : Nat) : Int)), ("value", CtxVal.encVal vi)]
        (some e0))
  | [], _, i, vi, e0, hget, _, _ => by simp at hget
  | v :: rest, k, i, vi, e0, hget, hbad, hmin => by
    cases i with
    | zero =>
      simp only [List.getElem?_cons_zero, Option.some.injEq] at hget
      subst hget
      unfold validateValuesFrom
      rw [hbad]
      simp
    | succ i' =>
      have h0 : validateEncryptionValue v = Except.ok () := by
        apply hmin 0 (Nat.succ_pos _) v
        simp
      unfold validateValuesFrom
      rw [h0]
      have ih := validateValuesFrom_firstError rest (k + 1) i' vi e0
        (by simpa using hget) hbad
        (fun j hj vj hvj => hmin (j + 1) (by omega) vj (by simpa using hvj))
      rw [ih]
      have hk : k + 1 + i' = k + (i' + 1) := by omega
      rw [hk]

lemma validateValuesFrom_ok :
    ∀ (values : List EncryptionValue) (k : Nat),
      (∀ vj ∈ values, validateEncryptionValue vj = Except.ok ()) →
      validateValuesFrom k values = Except.ok ()
  | [], _, _ => rfl
  | v :: rest, k, hall => by
    unfold validateValuesFrom
    rw [hall v (by simp)]
    exact validateValuesFrom_ok rest (k + 1) (fun vj hj => hall vj (by simp [hj]))

lemma validateOk_methodMap {v : EncryptionValue}
    (h : validateEncryptionValue v = Except.ok ()) :
    ∃ m, methodMap v.type = some m := by
  obtain ⟨t, w⟩ := v
  simp only [validateEncryptionValue] at h
  by_cases h1 : t = ""
  · rw [if_pos h1] at h; exact absurd h (by simp)
  rw [if_neg h1] at h
  by_cases h2 : w = JSValue.vNull
  · rw [if_pos h2] at h; exact absurd h (by simp)
  rw [if_neg h2] at h
  by_cases h3 : t = "ebool"
  · exact ⟨"addBool", by simp [methodMap, h3]⟩
  rw [if_neg h3] at h
  by_cases h4 : isEuintType t = true
  · simp only [isEuintType, Bool.or_eq_true, decide_eq_true_eq] at h4
    rcases h4 with ((((h4 | h4) | h4) | h4) | h4) | h4
    · exact ⟨"add8", by simp [methodMap, h4]⟩
    · exact ⟨"add16", by simp [methodMap, h4]⟩
    · exact ⟨"add32", by simp [methodMap, h4]⟩
    · exact ⟨"add64", by simp [methodMap, h4]⟩
    · exact ⟨"add128", by simp [methodMap, h4]⟩
    · exact ⟨"add256", by simp [methodMap, h4]⟩
  rw [if_neg h4] at h
  by_cases h5 : t = "eaddress"
  · exact ⟨"addAddress", by simp [methodMap, h5]⟩
  rw [if_neg h5] at h
  by_cases h6 : isEbytesType t = true
  · simp only [isEbytesType, Bool.or_eq_true, decide_eq_true_eq] at h6
    rcases h6 with (h6 | h6) | h6
    · exact ⟨"addBytes64", by simp [methodMap, h6]⟩
    · exact ⟨"addBytes128", by simp [methodMap, h6]⟩
    · exact ⟨"addBytes256", by simp [methodMap, h6]⟩
  rw [if_neg h6] at h
  exact absurd h (by simp)

lemma buildAppends_allValid :
    ∀ (values : List EncryptionValue),
      (∀ vj ∈ values, validateEncryptionValue vj = Except.ok ()) →
      ∃ appends, buildAppends values = Except.ok appends ∧
        appends.length = values.length ∧
        ∀ (i : Nat) (vi : EncryptionValue), values[i]? = some vi →
          ∃ m, methodMap vi.type = some m ∧ appends[i]? = some (m, vi.value)
  | [], _ => ⟨[], rfl, rfl, by intro i vi h; simp at h⟩
  | v :: rest, hall => by
    obtain ⟨m, hm⟩ := validateOk_methodMap (hall v (by simp))
    obtain ⟨tail, htail, hlen, hidx⟩ :=
      buildAppends_allValid rest (fun vj hj => hall vj (by simp [hj]))
    refine ⟨(m, v.value) :: tail, ?_, by simp [hlen], ?_⟩
    · unfold buildAppends
      rw [show getEncryptionMethod v.type = Except.ok m by
          simp [getEncryptionMethod, hm], htail]
    · intro i vi hget
      cases i with
      | zero =>
        simp only [List.getElem?_cons_zero, Option.some.injEq] at hget
        subst hget
        exact ⟨m, hm, by simp⟩
      | succ i' =>
        obtain ⟨m', hm', ha'⟩ := hidx i' vi (by simpa using hget)
        exact ⟨m', hm', by simpa using ha'⟩

lemma buildAppends_length :
    ∀ (values : List EncryptionValue) (appends : List (String × JSValue)),
      buildAppends values = Except.ok appends → appends.length = values.length
  | [], appends, h => by
    simp only [buildAppends, Except.ok.injEq] at h
    subst h
    rfl
  | v :: rest, appends, h => by
    unfold buildAppends at h
    cases hm : getEncryptionMethod v.type with
    | error e => rw [hm] at h; exact absurd h (by simp)
    | ok m =>
      rw [hm] at h
      cases ht : buildAppends rest with
      | error e => rw [ht] at h; exact absurd h (by simp)
      | ok tail =>
        rw [ht] at h
        simp only [Except.ok.injEq] at h
        subst h
        simp [buildAppends_length rest tail ht]

lemma encryptBatch_ok_shape {c u : String} {values : List EncryptionValue}
    {plan : BatchPlan} (h : encryptBatch true c u values = Except.ok plan) :
    plan.contractAddress = c ∧ plan.userAddress = u ∧
      plan.appends.length = values.length := by
  unfold encryptBatch at h
  rw [if_neg (by simp)] at h
  by_cases h0 : values.length = 0
  · rw [if_pos h0] at h; exact absurd h (by simp)
  rw [if_neg h0] at h
  split at h
  · exact absurd h (by simp)
  · split at h
    · rename_i appends heq
      simp only [Except.ok.injEq] at h
      subst h
      exact ⟨rfl, rfl, buildAppends_length values appends heq⟩
    · split_ifs at h

/-- **C7**: `encryptBatch` validates every element before any remote
interaction: when the element at index `i` is the first invalid one (all
earlier elements validate), the call fails with an `ENCRYPTION_FAILED`
error whose context reports exactly that smallest offending index, wrapping
the element's own validation error as its cause.  The result is an
`Except.error`, so no `BatchPlan` exists: `createEncryptedInput` is never
invoked and the builder's `encrypt()` finalizer never runs — a validation
failure never consumes a relayer round-trip. -/
theorem encryptBatch_validation_firewall (c u : String)
    (values : List EncryptionValue) (i : Nat) (vi : EncryptionValue) (e0 : JsError)
    (hget : values[i]? = some vi)
    (hbad : validateEncryptionValue vi = Except.error e0)
    (hmin : ∀ j, j < i → ∀ vj, values[j]? = some vj →
      validateEncryptionValue vj = Except.ok ()) :
    encryptBatch true c u values = Except.error (createEncryptionError
      ("Validation failed for value at index " ++ toString i)
      [("index", CtxVal.num i), ("value", CtxVal.encVal vi)] (some e0)) := by
  have hne : ¬ values.length = 0 := by
    intro h0
    rw [List.length_eq_zero] at h0
    subst h0
    simp at hget
  have hv := validateValuesFrom_firstError values 0 i vi e0 hget hbad hmin
  unfold encryptBatch
  rw [if_neg (by simp), if_neg hne, hv]
  simp

/-- Witness for C7: a batch whose second element (index 1) is the first
invalid one fails with the index-1 error and produces no plan. -/
theorem encryptBatch_validation_firewall_witness :
    ∃ E, encryptBatch true "0xc" "0xu"
        [⟨"ebool", JSValue.vBool true⟩, ⟨"euint8", JSValue.vNum 256⟩] =
      Except.error E
      ∧ ("index", CtxVal.num 1) ∈ errContext E
      ∧ errCode E = some FhevmErrorCode.ENCRYPTION_FAILED :=
  ⟨_, encryptBatch_validation_firewall "0xc" "0xu"
      [⟨"ebool", JSValue.vBool true⟩, ⟨"euint8", JSValue.vNum 256⟩] 1
      ⟨"euint8", JSValue.vNum 256⟩
      (createEncryptionError "Value exceeds maximum for euint8: 255"
        [("type", CtxVal.str "euint8"), ("value", CtxVal.js (JSValue.vNum 256)),
         ("max", CtxVal.str "255")] none)
      (by rfl) (by rfl)
      (by
        intro j hj vj hvj
        have hj0 : j = 0 := by omega
        subst hj0
        simp only [List.getElem?_cons_zero, Option.some.injEq] at hvj
        subst hvj
        rfl),
   by simp [errContext, createEncryptionError], by rfl⟩

/-- **C8, counterexample**: the claim quantifies over every list of `k`
valid values, but at `k = 0` (the empty list — vacuously all valid)
`encryptBatch` does not return a result with `handles.length = 0`: the
empty-list guard that precedes validation fails fast with the
`No values provided for encryption` error, so no builder is created and no
result is returned. -/
theorem encryptBatch_empty_cex :
    encryptBatch true "0xc" "0xu" [] =
      Except.error (createEncryptionError "No values provided for encryption"
        [("count", CtxVal.num 0)] none) := by
  rfl

/-- **C8, amended**: for a *nonempty* list of `k` valid values, `encryptBatch` builds
exactly one encrypted-input builder for the (contract, user) pair, appends
each value in input order via its type-specific `methodMap` method, and
finalizes once (the single `BatchPlan` it returns *is* that one
builder+finalize interaction, returned unchanged); a conforming remote
builder that yields one handle per appended value in append order then
produces `handles.length = k` in input order, with the single `inputProof`
for the whole batch. -/
theorem encryptBatch_plan (c u : String) (values : List EncryptionValue)
    (hne : values ≠ [])
    (hall : ∀ vj ∈ values, validateEncryptionValue vj = Except.ok ()) :
    ∃ appends, encryptBatch true c u values = Except.ok ⟨c, u, appends⟩
      ∧ appends.length = values.length
      ∧ (∀ (i : Nat) (vi : EncryptionValue), values[i]? = some vi →
          ∃ m, methodMap vi.type = some m ∧ appends[i]? = some (m, vi.value))
      ∧ ∀ gen proof,
          runEncryptedInput gen proof ⟨c, u, appends⟩ =
            ⟨(List.range values.length).map gen, proof⟩ := by
  obtain ⟨appends, happ, hlen, hidx⟩ := buildAppends_allValid values hall
  refine ⟨appends, ?_, hlen, hidx, ?_⟩
  · unfold encryptBatch
    rw [if_neg (by simp), if_neg (by simpa [List.length_eq_zero] using hne),
      validateValuesFrom_ok values 0 hall, happ]
  · intro gen proof
    simp [runEncryptedInput, hlen]

/-- Witness for C8: a two-element valid batch yields a plan with the two
type-specific appends in input order. -/
theorem encryptBatch_plan_witness :
    ∃ appends, encryptBatch true "0xc" "0xu"
        [⟨"euint32", JSValue.vNum 100⟩, ⟨"ebool", JSValue.vBool true⟩] =
      Except.ok ⟨"0xc", "0xu", appends⟩
      ∧ appends.length =
          ([⟨"euint32", JSValue.vNum 100⟩, ⟨"ebool", JSValue.vBool true⟩] :
            List EncryptionValue).length
      ∧ (∀ (i : Nat) (vi : EncryptionValue),
          ([⟨"euint32", JSValue.vNum 100⟩, ⟨"ebool", JSValue.vBool true⟩] :
            List EncryptionValue)[i]? = some vi →
          ∃ m, methodMap vi.type = some m ∧ appends[i]? = some (m, vi.value))
      ∧ ∀ gen proof,
          runEncryptedInput gen proof ⟨"0xc", "0xu", appends⟩ =
            ⟨(List.range
                ([⟨"euint32", JSValue.vNum 100⟩, ⟨"ebool", JSValue.vBool true⟩] :
                  List EncryptionValue).length).map gen, proof⟩ :=
  encryptBatch_plan "0xc" "0xu"
    [⟨"euint32", JSValue.vNum 100⟩, ⟨"ebool", JSValue.vBool true⟩]
    (by decide)
    (by
      intro vj hj
      simp only [List.mem_cons, List.not_mem_nil, or_false] at hj
      rcases hj with rfl | rfl <;> rfl)

/-- **C9**: `encryptStruct` is sugar over `encryptBatch`: it equals the
spec-side composition (`encryptBatch` on the field values in
field-enumeration order, paired with the field names in that same order),
and on success the returned field names are exactly the struct's keys in
order while the plan has one append per field, so the i-th handle of a
conforming builder corresponds to the i-th returned field name. -/
theorem encryptStruct_is_batch_sugar (ready : Bool) (c u : String)
    (struct : List (String × EncryptionValue)) :
    encryptStruct ready c u struct = encryptStructSpec ready c u struct
  ∧ (∀ plan fields, encryptStruct ready c u struct = Except.ok (plan, fields) →
      fields = struct.map Prod.fst
      ∧ plan.appends.length = struct.length
      ∧ ∀ gen proof,
          (runEncryptedInput gen proof plan).handles.length = fields.length) := by
  constructor
  · unfold encryptStruct encryptStructSpec
    cases h : encryptBatch ready c u (struct.map Prod.snd) with
    | error e => simp [h, Except.map]
    | ok r => simp [h, Except.map]
  · intro plan fields hok
    cases ready with
    | false => exact absurd hok (by simp [encryptStruct, encryptBatch])
    | true =>
      simp only [encryptStruct] at hok
      cases h : encryptBatch true c u (struct.map Prod.snd) with
      | error e => rw [h] at hok; exact absurd hok (by simp)
      | ok r =>
        rw [h] at hok
        simp only [Except.ok.injEq, Prod.mk.injEq] at hok
        obtain ⟨h1, h2⟩ := hok
        subst h1
        subst h2
        obtain ⟨-, -, hlen⟩ := encryptBatch_ok_shape h
        refine ⟨rfl, by simpa using hlen, ?_⟩
        intro gen proof
        simp [runEncryptedInput, hlen]

/-- Witness for C9 at a one-field struct: the sugar equality and the
field-name/handle alignment at a concrete plan and a concrete builder. -/
theorem encryptStruct_is_batch_sugar_witness :
    encryptStruct true "0xc" "0xu" [("flag", ⟨"ebool", JSValue.vBool true⟩)] =
      encryptStructSpec true "0xc" "0xu" [("flag", ⟨"ebool", JSValue.vBool true⟩)]
  ∧ (["flag"] : List String) =
      ([("flag", (⟨"ebool", JSValue.vBool true⟩ : EncryptionValue))]).map Prod.fst
  ∧ (runEncryptedInput (fun _ => "0xh") "0xp"
        ⟨"0xc", "0xu", [("addBool", JSValue.vBool true)]⟩).handles.length =
      (["flag"] : List String).length :=
  ⟨(encryptStruct_is_batch_sugar true "0xc" "0xu"
      [("flag", ⟨"ebool", JSValue.vBool true⟩)]).1,
   ((encryptStruct_is_batch_sugar true "0xc" "0xu"
      [("flag", ⟨"ebool", JSValue.vBool true⟩)]).2
      ⟨"0xc", "0xu", [("addBool", JSValue.vBool true)]⟩ ["flag"] (by rfl)).1,
   ((encryptStruct_is_batch_sugar true "0xc" "0xu"
      [("flag", ⟨"ebool", JSValue.vBool true⟩)]).2
      ⟨"0xc", "0xu", [("addBool", JSValue.vBool true)]⟩ ["flag"] (by rfl)).2.2
     (fun _ => "0xh") "0xp"⟩
